import Mathlib

/-!
Verification of the study-timer time-accounting and streak core.

Timestamps are modelled as integer milliseconds on the viewer's local
wall clock (JavaScript `Date` values converted to local time; the time
zone is fixed for a run, so an instant is just its local epoch offset).
ISO-string timestamps of the source are therefore `Int` here, durations
are whole seconds, and JavaScript `Math.floor` division is `Int.fdiv`.
-/

namespace StudyTimer

/-- Milliseconds in one calendar day. -/
def msPerDay : Int := 86400000

/-- The 04:30 cutover, as milliseconds after local midnight. -/
def cutoverMs : Int := 16200000

/-- Exam types, from `lib/types` (`export type ExamType = "JEE" | "NEET"`). -/
inductive ExamType
  | JEE
  | NEET
deriving DecidableEq, Repr

/-- `DEFAULT_EXAM_CONFIGS` from `lib/types`: total marks and the ordered
per-subject mark table (JavaScript object keys keep insertion order). -/
def DEFAULT_EXAM_CONFIGS : ExamType → Int × List (String × Int)
  | .JEE => (300, [("physics", 100), ("chemistry", 100), ("mathematics", 100)])
  | .NEET => (720, [("physics", 180), ("chemistry", 180), ("botany", 180), ("zoology", 180)])

/-- `Object.keys(DEFAULT_EXAM_CONFIGS[et].subjectMarks)`: the subject set of
an exam type, in table order. -/
def subjectKeys (et : ExamType) : List String :=
  (DEFAULT_EXAM_CONFIGS et).2.map Prod.fst

/-- A study session record (`TimeLog` in `lib/types`). -/
structure TimeLog where
  id : String
  subject : String
  duration : Int
  timestamp : Int
  startTime : Int
  endTime : Int
  questionCount : Int
  goalId : Option String
  goalTitle : Option String
  notes : Option String
deriving DecidableEq, Repr

/-- A task ("goal") record (`Task` in `lib/types`). -/
structure Task where
  id : String
  title : String
  subject : String
  completed : Bool
  createdAt : Int
deriving DecidableEq, Repr

/-- Per-subject slice of a mock-test record (`SubjectTestData`). -/
structure SubjectTestData where
  score : Int
  questionsAttempted : Int
  correctAnswers : Int
  incorrectAnswers : Int
  topicsTested : Option (List String)
deriving DecidableEq, Repr

/-- A mock-test record (`TestRecord` in `lib/types`). -/
structure TestRecord where
  id : String
  date : Int
  totalScore : Int
  totalMarks : Int
  timeSpent : Int
  notes : Option String
  subjectData : List (String × SubjectTestData)
deriving DecidableEq, Repr

/-- Streak thresholds (`settings.streakConfig`). -/
structure StreakConfig where
  minStudyHours : ℚ
  minQuestions : ℚ
deriving DecidableEq, Repr

/-- One entry of the streak day-history (`streakHistory` element). -/
structure StreakEntry where
  date : Int
  maintained : Bool
deriving DecidableEq, Repr

/-- Persistent streak state (`StreakData` in `lib/types`). -/
structure StreakData where
  currentStreak : Int
  longestStreak : Int
  lastStreakDate : Int
  streakHistory : List StreakEntry
deriving DecidableEq, Repr

/-- User settings (`UserSettings` in `lib/types`). -/
structure UserSettings where
  examType : ExamType
  customSubjectNames : List (String × String)
  streakConfig : StreakConfig
deriving DecidableEq, Repr

/-- The calendar date a local instant falls on (`Date#toDateString`
equality is equality of this number): floor of days since local epoch. -/
def calDay (t : Int) : Int := t.fdiv msPerDay

/-- Local time of day in milliseconds (what `getHours`/`getMinutes` read). -/
def timeOfDay (t : Int) : Int := t - calDay t * msPerDay

/-- `startOfDay` as built in `checkStreakRequirements`: calendar day `d`
at 04:30:00.000 local (`setHours(4, 30, 0, 0)`). -/
def windowStart (d : Int) : Int := d * msPerDay + cutoverMs

/-- `endOfDay` as built in `checkStreakRequirements`: the next calendar
day at 04:29:59.999 local (`setDate(+1); setHours(4, 29, 59, 999)`). -/
def windowEnd (d : Int) : Int := (d + 1) * msPerDay + cutoverMs - 1

/-- The logical day of an instant: the calendar date whose
`[04:30, next 04:30)` window contains it. -/
def logicalDay (t : Int) : Int := (t - cutoverMs).fdiv msPerDay

/-- The `today` lower bound computed at the top of `getFilteredLogs`
(insights-view): 04:30 of the current calendar day, moved one day back
when the current wall-clock time is before 04:30
(`now.getHours() < 4 || (now.getHours() === 4 && now.getMinutes() < 30)`). -/
def todayStart (now : Int) : Int :=
  let hours := (timeOfDay now).fdiv 3600000
  let minutes := (timeOfDay now - hours * 3600000).fdiv 60000
  let today := windowStart (calDay now)
  if hours < 4 ∨ (hours = 4 ∧ minutes < 30) then today - msPerDay else today

/-- The `timeFrame === "today"` branch of `getFilteredLogs`:
keep logs whose timestamp is at or after the logical-day start. -/
def getFilteredLogsToday (timeLogs : List TimeLog) (now : Int) : List TimeLog :=
  timeLogs.filter (fun log => decide (todayStart now ≤ log.timestamp))

/-- `checkStreakRequirements` (insights-view): logs whose `startTime` lies in
the `[04:30, next day 04:29:59.999]` window of the given instant's calendar
day are summed; the day qualifies when total hours and total questions both
reach the configured thresholds. Arithmetic is exact rational arithmetic. -/
def checkStreakRequirements (cfg : StreakConfig) (timeLogs : List TimeLog) (date : Int) : Bool :=
  let dayLogs := timeLogs.filter (fun log =>
    decide (windowStart (calDay date) ≤ log.startTime) &&
    decide (log.startTime ≤ windowEnd (calDay date)))
  let totalHours : ℚ := (dayLogs.map (fun log => (log.duration : ℚ) / 3600)).sum
  let totalQuestions : ℚ := (dayLogs.map (fun log => (log.questionCount : ℚ))).sum
  decide (cfg.minStudyHours ≤ totalHours) && decide (cfg.minQuestions ≤ totalQuestions)

/-- The history update of `updateStreak`: `findIndex` on equal calendar date
(`toDateString` comparison) overwrites the first matching entry's
`maintained` flag; with no match the new entry is pushed at the end. -/
def upsertHistory (hist : List StreakEntry) (today : Int) (met : Bool) : List StreakEntry :=
  match hist with
  | [] => [{ date := today, maintained := met }]
  | h :: rest =>
    if calDay h.date = calDay today then { h with maintained := met } :: rest
    else h :: upsertHistory rest today met

/-- `updateStreak` (insights-view), with the evaluation instant `today`
passed explicitly (`new Date()` in the source); `yesterday` is the same
wall-clock time one day earlier (`setDate(getDate() - 1)`). All day
comparisons are `toDateString` equality, i.e. calendar-date equality. -/
def updateStreak (cfg : StreakConfig) (timeLogs : List TimeLog) (streakData : StreakData)
    (today : Int) : StreakData :=
  let yesterday := today - msPerDay
  let lastStreakDate := streakData.lastStreakDate
  let todayMet := checkStreakRequirements cfg timeLogs today
  let yesterdayMet := checkStreakRequirements cfg timeLogs yesterday
  let newHistory := upsertHistory streakData.streakHistory today todayMet
  let streakAfterBreak : Int :=
    if yesterdayMet = false ∧ calDay lastStreakDate = calDay yesterday then 0
    else streakData.currentStreak
  let newStreak : Int :=
    if todayMet = true then
      if calDay lastStreakDate = calDay yesterday ∧ yesterdayMet = true then
        streakAfterBreak + 1
      else if calDay lastStreakDate ≠ calDay today then 1
      else streakAfterBreak
    else streakAfterBreak
  { currentStreak := newStreak
    longestStreak := max newStreak streakData.longestStreak
    lastStreakDate := today
    streakHistory := newHistory }

/-- Run the streak engine once per instant in `ts`, in order. -/
def runStreak (cfg : StreakConfig) (timeLogs : List TimeLog) (streakData : StreakData)
    (ts : List Int) : StreakData :=
  ts.foldl (updateStreak cfg timeLogs) streakData

/-- The `currentStreak` value observed after each successive evaluation. -/
def streakSequence (cfg : StreakConfig) (timeLogs : List TimeLog) :
    StreakData → List Int → List Int
  | _, [] => []
  | streakData, t :: ts =>
    let next := updateStreak cfg timeLogs streakData t
    next.currentStreak :: streakSequence cfg timeLogs next ts

/-- `addManualStudyLog` (insights-view): derives the duration as
`Math.floor((end - start) / 1000)` and throws when it is not positive;
otherwise the new record is appended. The thrown error is an `Except`. -/
def addManualStudyLog (timeLogs : List TimeLog) (newId : String) (subject : String)
    (startTime endTime : Int) (questionCount : Int)
    (goalId goalTitle notes : Option String) : Except String (List TimeLog) :=
  let duration := (endTime - startTime).fdiv 1000
  if duration ≤ 0 then Except.error "End time must be after start time"
  else Except.ok (timeLogs ++ [{
    id := newId
    subject := subject
    duration := duration
    timestamp := endTime
    startTime := startTime
    endTime := endTime
    questionCount := questionCount
    goalId := goalId
    goalTitle := goalTitle
    notes := notes }])

/-- `deleteStudyLog` (insights-view): keep every log with a different id. -/
def deleteStudyLog (timeLogs : List TimeLog) (logId : String) : List TimeLog :=
  timeLogs.filter (fun log => decide (log.id ≠ logId))

/-- `editStudyLogEndTime` (insights-view): the map over the collection
recomputes the duration of each matching log and throws out of the whole
map when it is not positive, so an error leaves the collection untouched. -/
def editStudyLogEndTime (timeLogs : List TimeLog) (logId : String) (newEndTime : Int) :
    Except String (List TimeLog) :=
  match timeLogs with
  | [] => Except.ok []
  | log :: rest =>
    if log.id = logId then
      let duration := (newEndTime - log.startTime).fdiv 1000
      if duration ≤ 0 then Except.error "End time must be after start time"
      else do
        let rest2 ← editStudyLogEndTime rest logId newEndTime
        Except.ok ({ log with endTime := newEndTime, duration := duration,
                              timestamp := newEndTime } :: rest2)
    else do
      let rest2 ← editStudyLogEndTime rest logId newEndTime
      Except.ok (log :: rest2)

/-- `editStudyLogQuestionCount` (insights-view and dashboard): overwrite the
matching log's question count; no validation is performed here. -/
def editStudyLogQuestionCount (timeLogs : List TimeLog) (logId : String)
    (newQuestionCount : Int) : List TimeLog :=
  timeLogs.map (fun log =>
    if log.id = logId then { log with questionCount := newQuestionCount } else log)

/-- `editStudyLogNotes` (insights-view): overwrite the matching log's notes. -/
def editStudyLogNotes (timeLogs : List TimeLog) (logId : String)
    (newNotes : String) : List TimeLog :=
  timeLogs.map (fun log =>
    if log.id = logId then { log with notes := some newNotes } else log)

/-- `handleEditQuestionCount` (study-logs): the UI edit handler checks for a
negative count, reports the error and returns without mutating; otherwise it
invokes the store mutation `editStudyLogQuestionCount`. -/
def handleEditQuestionCount (timeLogs : List TimeLog) (editingLogId : String)
    (newQuestionCount : Int) : Except String (List TimeLog) :=
  if newQuestionCount < 0 then Except.error "Question count cannot be negative"
  else Except.ok (editStudyLogQuestionCount timeLogs editingLogId newQuestionCount)

/-- `getTotalTimeBySubject` (insights-view): one total per key of
`classes :: subjects(examType)` (object insertion order), each the sum of
the durations of the logs carrying that subject; logs with foreign
subjects hit no key and are ignored. -/
def getTotalTimeBySubject (examType : ExamType) (filteredLogs : List TimeLog) :
    List (String × Int) :=
  ("classes" :: subjectKeys examType).map (fun subj =>
    (subj, ((filteredLogs.filter (fun log => log.subject == subj)).map
      (fun log => log.duration)).sum))

/-- `getTotalQuestionsBySubject` (insights-view): same grouping, summing
`questionCount` instead. -/
def getTotalQuestionsBySubject (examType : ExamType) (filteredLogs : List TimeLog) :
    List (String × Int) :=
  ("classes" :: subjectKeys examType).map (fun subj =>
    (subj, ((filteredLogs.filter (fun log => log.subject == subj)).map
      (fun log => log.questionCount)).sum))

/-- JavaScript `Math.round`: half-way cases round toward positive infinity. -/
def jsRound (x : ℚ) : Int := ⌊x + 1 / 2⌋

/-- `calculateChange` (weekly report): week-over-week percent change with the
`previous == 0` policy. -/
def calculateChange (current previous : ℚ) : Int :=
  if previous = 0 then (if current > 0 then 100 else 0)
  else jsRound ((current - previous) / previous * 100)

/-- The component state touched by `handleUpdateSettings`. -/
structure AppState where
  activeSubject : String
  timeLogs : List TimeLog
  tasks : List Task
  tests : List TestRecord
  settings : UserSettings
deriving DecidableEq, Repr

/-- `handleUpdateSettings` (insights-view): stores the new settings; when the
exam type changed it also resets the active subject to the first subject of
the new configuration, drops logs and tasks whose subject is neither
"classes" nor in the new subject set, and clears all test records. -/
def handleUpdateSettings (st : AppState) (newSettings : UserSettings) : AppState :=
  if newSettings.examType ≠ st.settings.examType then
    { st with
      settings := newSettings
      activeSubject := (subjectKeys newSettings.examType).headD st.activeSubject
      timeLogs := st.timeLogs.filter (fun log =>
        log.subject == "classes" || (subjectKeys newSettings.examType).contains log.subject)
      tasks := st.tasks.filter (fun task =>
        task.subject == "classes" || (subjectKeys newSettings.examType).contains task.subject)
      tests := [] }
  else { st with settings := newSettings }

theorem fdiv_day_eq_ediv (a : Int) : a.fdiv msPerDay = a / msPerDay :=
  Int.fdiv_eq_ediv a (by decide)

theorem calDay_eq (t : Int) : calDay t = t / 86400000 := by
  simpa [msPerDay] using fdiv_day_eq_ediv t

theorem logicalDay_eq (t : Int) : logicalDay t = (t - 16200000) / 86400000 := by
  simpa [msPerDay, cutoverMs, logicalDay] using fdiv_day_eq_ediv (t - cutoverMs)

theorem fdiv_hour_eq_ediv (a : Int) : a.fdiv 3600000 = a / 3600000 :=
  Int.fdiv_eq_ediv a (by decide)

theorem fdiv_minute_eq_ediv (a : Int) : a.fdiv 60000 = a / 60000 :=
  Int.fdiv_eq_ediv a (by decide)

/-- Every instant lies inside the `[04:30, next 04:30)` window of its
logical day. -/
theorem logicalDay_mem_window (t : Int) :
    windowStart (logicalDay t) ≤ t ∧ t ≤ windowEnd (logicalDay t) := by
  rw [logicalDay_eq]
  simp only [windowStart, windowEnd, msPerDay, cutoverMs]
  omega

/-- The logical day is the unique calendar date whose window contains the
instant. -/
theorem logicalDay_unique {d t : Int} (h1 : windowStart d ≤ t) (h2 : t ≤ windowEnd d) :
    logicalDay t = d := by
  rw [logicalDay_eq]
  simp only [windowStart, windowEnd, msPerDay, cutoverMs] at h1 h2
  omega

/-- C2: the logical-day assignment maps an instant strictly before 04:30
local time to the previous calendar date and an instant at or after 04:30
to the current calendar date; exactly 04:30:00.000 opens the new logical
day; the assignment is constant exactly on each `[04:30, next 04:30)`
window; and the `getFilteredLogs` "today" lower bound is precisely the
start of the current logical day's window. -/
theorem c2_logical_day_assignment (t : Int) :
    logicalDay t = (if timeOfDay t < cutoverMs then calDay t - 1 else calDay t) ∧
    logicalDay (windowStart (calDay t)) = calDay t ∧
    (∀ s : Int, logicalDay s = logicalDay t ↔
      (windowStart (logicalDay t) ≤ s ∧ s ≤ windowEnd (logicalDay t))) ∧
    todayStart t = windowStart (logicalDay t) := by
  have hca := calDay_eq t
  refine ⟨?_, ?_, ?_, ?_⟩
  · rw [logicalDay_eq]
    simp only [timeOfDay, cutoverMs, msPerDay, hca]
    split <;> omega
  · rw [logicalDay_eq]
    simp only [windowStart, msPerDay, cutoverMs, hca]
    omega
  · intro s
    rw [logicalDay_eq s, logicalDay_eq t]
    simp only [windowStart, windowEnd, msPerDay, cutoverMs]
    omega
  · rw [logicalDay_eq]
    simp only [todayStart, timeOfDay, windowStart, msPerDay, cutoverMs,
      fdiv_hour_eq_ediv, fdiv_minute_eq_ediv, hca]
    split <;> omega

theorem sum_map_duration_div (l : List TimeLog) :
    (l.map (fun log => (log.duration : ℚ) / 3600)).sum =
      (((l.map (fun log => log.duration)).sum : Int) : ℚ) / 3600 := by
  induction l with
  | nil => simp
  | cons x t ih => simp [ih, add_div]

theorem sum_map_questionCount_cast (l : List TimeLog) :
    (l.map (fun log => (log.questionCount : ℚ))).sum =
      (((l.map (fun log => log.questionCount)).sum : Int) : ℚ) := by
  induction l with
  | nil => simp
  | cons x t ih => simp [ih]

/-- For integer thresholds the qualification check is an integer
comparison on the summed seconds and questions of the day's logs. -/
theorem checkStreakRequirements_int (mh mq : Int) (timeLogs : List TimeLog) (date : Int) :
    checkStreakRequirements ⟨(mh : ℚ), (mq : ℚ)⟩ timeLogs date =
      (decide (mh * 3600 ≤ ((timeLogs.filter (fun log =>
          decide (windowStart (calDay date) ≤ log.startTime) &&
          decide (log.startTime ≤ windowEnd (calDay date)))).map (fun log => log.duration)).sum) &&
       decide (mq ≤ ((timeLogs.filter (fun log =>
          decide (windowStart (calDay date) ≤ log.startTime) &&
          decide (log.startTime ≤ windowEnd (calDay date)))).map (fun log => log.questionCount)).sum)) := by
  simp only [checkStreakRequirements]
  congr 1
  · rw [sum_map_duration_div]
    apply decide_eq_decide.mpr
    rw [le_div_iff₀ (by norm_num : (0 : ℚ) < 3600)]
    exact_mod_cast Iff.rfl
  · rw [sum_map_questionCount_cast]
    apply decide_eq_decide.mpr
    exact_mod_cast Iff.rfl

/-- The history field of one evaluation is exactly the upsert of the old
history at today's calendar day. -/
theorem updateStreak_history (cfg : StreakConfig) (timeLogs : List TimeLog)
    (streakData : StreakData) (today : Int) :
    (updateStreak cfg timeLogs streakData today).streakHistory =
      upsertHistory streakData.streakHistory today
        (checkStreakRequirements cfg timeLogs today) := rfl

/-- C8: one streak evaluation sets `longestStreak` to the maximum of the
previous `longestStreak` and the new `currentStreak`, so it never
decreases; this holds for every streak state and every session set. -/
theorem c8_longest_streak_monotone (cfg : StreakConfig) (timeLogs : List TimeLog)
    (streakData : StreakData) (today : Int) :
    (updateStreak cfg timeLogs streakData today).longestStreak =
      max streakData.longestStreak
        (updateStreak cfg timeLogs streakData today).currentStreak ∧
    streakData.longestStreak ≤ (updateStreak cfg timeLogs streakData today).longestStreak :=
  ⟨max_comm _ _, le_max_right _ _⟩

/-- C5: `calculateChange` is the rounded percent change with the
division-by-zero policy of the spec, and takes the three documented
values. -/
theorem c5_calculate_change (current previous : ℚ) :
    calculateChange current previous =
      (if previous = 0 then (if 0 < current then 100 else 0)
       else jsRound (100 * (current - previous) / previous)) ∧
    calculateChange 0 0 = 0 ∧
    calculateChange 50 0 = 100 ∧
    calculateChange 80 100 = -20 := by
  refine ⟨?_, by norm_num [calculateChange], by norm_num [calculateChange], ?_⟩
  · simp only [calculateChange]
    split
    · rfl
    · congr 1
      ring
  · norm_num [calculateChange, jsRound]

theorem fdiv_thousand_eq_ediv (a : Int) : a.fdiv 1000 = a / 1000 :=
  Int.fdiv_eq_ediv a (by decide)

/-- The record the matching log is replaced with in `editStudyLogEndTime`. -/
def editedEndTime (log : TimeLog) (newEndTime : Int) : TimeLog :=
  { log with
    endTime := newEndTime
    duration := (newEndTime - log.startTime).fdiv 1000
    timestamp := newEndTime }

/-- A successful end-time edit is exactly the map replacing every matching
log, and every matching log's recomputed duration is positive. -/
theorem editStudyLogEndTime_ok_char (timeLogs : List TimeLog) (logId : String)
    (newEndTime : Int) (result : List TimeLog)
    (h : editStudyLogEndTime timeLogs logId newEndTime = Except.ok result) :
    result = timeLogs.map (fun log =>
      if log.id = logId then editedEndTime log newEndTime else log) ∧
    ∀ log ∈ timeLogs, log.id = logId → 0 < (newEndTime - log.startTime).fdiv 1000 := by
  induction timeLogs generalizing result with
  | nil =>
    simp only [editStudyLogEndTime, Except.ok.injEq] at h
    simp [← h]
  | cons l rest ih =>
    simp only [editStudyLogEndTime] at h
    by_cases hl : l.id = logId
    · rw [if_pos hl] at h
      by_cases hd : (newEndTime - l.startTime).fdiv 1000 ≤ 0
      · rw [if_pos hd] at h
        exact absurd h (by simp)
      · rw [if_neg hd] at h
        cases hrest : editStudyLogEndTime rest logId newEndTime with
        | error e =>
          rw [hrest] at h
          exact absurd h (by simp [Bind.bind, Except.bind])
        | ok rest2 =>
          rw [hrest] at h
          simp only [Bind.bind, Except.bind, Except.ok.injEq] at h
          obtain ⟨h1, h2⟩ := ih rest2 hrest
          subst h1
          refine ⟨by simp [← h, hl, editedEndTime], ?_⟩
          intro log hm hid
          rcases List.mem_cons.mp hm with rfl | hmr
          · omega
          · exact h2 log hmr hid
    · rw [if_neg hl] at h
      cases hrest : editStudyLogEndTime rest logId newEndTime with
      | error e =>
        rw [hrest] at h
        exact absurd h (by simp [Bind.bind, Except.bind])
      | ok rest2 =>
        rw [hrest] at h
        simp only [Bind.bind, Except.bind, Except.ok.injEq] at h
        obtain ⟨h1, h2⟩ := ih rest2 hrest
        subst h1
        refine ⟨by simp [← h, hl], ?_⟩
        intro log hm hid
        rcases List.mem_cons.mp hm with rfl | hmr
        · exact absurd hid hl
        · exact h2 log hmr hid

/-- The end-time edit fails with the validation error as soon as some
matching log would get a non-positive duration. -/
theorem editStudyLogEndTime_error_of_bad (timeLogs : List TimeLog) (logId : String)
    (newEndTime : Int)
    (h : ∃ log ∈ timeLogs, log.id = logId ∧ (newEndTime - log.startTime).fdiv 1000 ≤ 0) :
    editStudyLogEndTime timeLogs logId newEndTime =
      Except.error "End time must be after start time" := by
  induction timeLogs with
  | nil => simp at h
  | cons l rest ih =>
    obtain ⟨w, hw, hwid, hwd⟩ := h
    simp only [editStudyLogEndTime]
    rcases List.mem_cons.mp hw with rfl | hwr
    · rw [if_pos hwid, if_pos hwd]
    · by_cases hl : l.id = logId
      · rw [if_pos hl]
        by_cases hd : (newEndTime - l.startTime).fdiv 1000 ≤ 0
        · rw [if_pos hd]
        · rw [if_neg hd, ih ⟨w, hwr, hwid, hwd⟩]
          rfl
      · rw [if_neg hl, ih ⟨w, hwr, hwid, hwd⟩]
        rfl

/-- An end-time edit that matches no log succeeds and returns the
collection unchanged. -/
theorem editStudyLogEndTime_noop (timeLogs : List TimeLog) (logId : String)
    (newEndTime : Int) (h : ∀ log ∈ timeLogs, log.id ≠ logId) :
    editStudyLogEndTime timeLogs logId newEndTime = Except.ok timeLogs := by
  induction timeLogs with
  | nil => rfl
  | cons l rest ih =>
    have hl : l.id ≠ logId := h l (List.mem_cons_self l rest)
    have hr : ∀ log ∈ rest, log.id ≠ logId := fun log hm => h log (List.mem_cons_of_mem l hm)
    simp only [editStudyLogEndTime, if_neg hl, ih hr]
    rfl

/-- C3: a manual creation or an end-time edit that succeeds stores
`floor((end - start) / 1000)` as the duration of every record it creates
or rewrites, and that duration is strictly positive; when the new end
time is at or before the start time the operation raises the validation
error, and the `Except.error` outcome carries no collection at all, so
the stored collection is untouched (atomicity on error). -/
theorem c3_duration_validation (timeLogs : List TimeLog) (newId subject : String)
    (startTime endTime questionCount : Int) (goalId goalTitle notes : Option String)
    (logId : String) (newEndTime : Int) :
    (∀ result, addManualStudyLog timeLogs newId subject startTime endTime questionCount
        goalId goalTitle notes = Except.ok result →
      result = timeLogs ++ [{
        id := newId
        subject := subject
        duration := (endTime - startTime).fdiv 1000
        timestamp := endTime
        startTime := startTime
        endTime := endTime
        questionCount := questionCount
        goalId := goalId
        goalTitle := goalTitle
        notes := notes }] ∧ 0 < (endTime - startTime).fdiv 1000) ∧
    (endTime ≤ startTime →
      addManualStudyLog timeLogs newId subject startTime endTime questionCount
        goalId goalTitle notes = Except.error "End time must be after start time") ∧
    (∀ result, editStudyLogEndTime timeLogs logId newEndTime = Except.ok result →
      result = timeLogs.map (fun log =>
        if log.id = logId then editedEndTime log newEndTime else log) ∧
      ∀ log ∈ timeLogs, log.id = logId → 0 < (newEndTime - log.startTime).fdiv 1000) ∧
    ((∃ log ∈ timeLogs, log.id = logId ∧ newEndTime ≤ log.startTime) →
      editStudyLogEndTime timeLogs logId newEndTime =
        Except.error "End time must be after start time") := by
  refine ⟨?_, ?_, ?_, ?_⟩
  · intro result hres
    simp only [addManualStudyLog] at hres
    split at hres
    · exact absurd hres (by simp)
    · next hd =>
      simp only [Except.ok.injEq] at hres
      exact ⟨hres.symm, by omega⟩
  · intro hle
    have hd : (endTime - startTime).fdiv 1000 ≤ 0 := by
      rw [fdiv_thousand_eq_ediv]
      omega
    simp only [addManualStudyLog, if_pos hd]
  · exact fun result hres => editStudyLogEndTime_ok_char timeLogs logId newEndTime result hres
  · intro hex
    obtain ⟨w, hw, hwid, hwle⟩ := hex
    refine editStudyLogEndTime_error_of_bad timeLogs logId newEndTime ⟨w, hw, hwid, ?_⟩
    rw [fdiv_thousand_eq_ediv]
    omega

/-- A concrete log used by the mutation-operation witnesses. -/
def sampleLog : TimeLog :=
  { id := "7", subject := "physics", duration := 60, timestamp := 100000,
    startTime := 40000, endTime := 100000, questionCount := 3,
    goalId := none, goalTitle := none, notes := none }

theorem c3_duration_validation_witness :
    (∀ result, addManualStudyLog [] "1" "physics" 40000 100000 3
        none none none = Except.ok result →
      result = [] ++ [{
        id := "1"
        subject := "physics"
        duration := ((100000 : Int) - 40000).fdiv 1000
        timestamp := 100000
        startTime := 40000
        endTime := 100000
        questionCount := 3
        goalId := none
        goalTitle := none
        notes := none }] ∧ 0 < ((100000 : Int) - 40000).fdiv 1000) ∧
    addManualStudyLog [sampleLog] "1" "physics" 100000 40000 3 none none none =
      Except.error "End time must be after start time" ∧
    editStudyLogEndTime [sampleLog] "7" 20000 =
      Except.error "End time must be after start time" :=
  ⟨(c3_duration_validation [] "1" "physics" 40000 100000 3 none none none "x" 0).1,
   (c3_duration_validation [sampleLog] "1" "physics" 100000 40000 3 none none none
      "x" 0).2.1 (by decide),
   (c3_duration_validation [sampleLog] "1" "physics" 100000 40000 3 none none none
      "7" 20000).2.2.2 ⟨sampleLog, by decide, by decide, by decide⟩⟩

/-- A question-count edit that matches no log returns the list unchanged. -/
theorem editStudyLogQuestionCount_noop (timeLogs : List TimeLog) (logId : String)
    (newQuestionCount : Int) (h : ∀ log ∈ timeLogs, log.id ≠ logId) :
    editStudyLogQuestionCount timeLogs logId newQuestionCount = timeLogs := by
  induction timeLogs with
  | nil => rfl
  | cons l rest ih =>
    have hl : l.id ≠ logId := h l (List.mem_cons_self l rest)
    have hr : ∀ log ∈ rest, log.id ≠ logId := fun log hm => h log (List.mem_cons_of_mem l hm)
    simp only [editStudyLogQuestionCount] at ih ⊢
    rw [List.map_cons, if_neg hl, ih hr]

/-- A notes edit that matches no log returns the list unchanged. -/
theorem editStudyLogNotes_noop (timeLogs : List TimeLog) (logId : String)
    (newNotes : String) (h : ∀ log ∈ timeLogs, log.id ≠ logId) :
    editStudyLogNotes timeLogs logId newNotes = timeLogs := by
  induction timeLogs with
  | nil => rfl
  | cons l rest ih =>
    have hl : l.id ≠ logId := h l (List.mem_cons_self l rest)
    have hr : ∀ log ∈ rest, log.id ≠ logId := fun log hm => h log (List.mem_cons_of_mem l hm)
    simp only [editStudyLogNotes] at ih ⊢
    rw [List.map_cons, if_neg hl, ih hr]

/-- C10: when no record carries the given id, delete and all three edit
operations are silent no-ops — no error is raised and the collection is
returned unchanged, element for element. -/
theorem c10_unknown_id_noop (timeLogs : List TimeLog) (logId : String)
    (newEndTime newQuestionCount : Int) (newNotes : String)
    (h : ∀ log ∈ timeLogs, log.id ≠ logId) :
    deleteStudyLog timeLogs logId = timeLogs ∧
    editStudyLogEndTime timeLogs logId newEndTime = Except.ok timeLogs ∧
    editStudyLogQuestionCount timeLogs logId newQuestionCount = timeLogs ∧
    editStudyLogNotes timeLogs logId newNotes = timeLogs := by
  refine ⟨?_, editStudyLogEndTime_noop timeLogs logId newEndTime h,
    editStudyLogQuestionCount_noop timeLogs logId newQuestionCount h,
    editStudyLogNotes_noop timeLogs logId newNotes h⟩
  rw [deleteStudyLog, List.filter_eq_self]
  intro a ha
  simpa using h a ha

theorem c10_unknown_id_noop_witness :
    deleteStudyLog [sampleLog] "nope" = [sampleLog] ∧
    editStudyLogEndTime [sampleLog] "nope" 0 = Except.ok [sampleLog] ∧
    editStudyLogQuestionCount [sampleLog] "nope" 99 = [sampleLog] ∧
    editStudyLogNotes [sampleLog] "nope" "hi" = [sampleLog] :=
  c10_unknown_id_noop [sampleLog] "nope" 0 99 "hi" (by decide)

/-- C9 counterexample: the store-level mutation `editStudyLogQuestionCount`
(the function the claim cites) accepts a negative question count: editing
`sampleLog`'s count to `-5` raises no error, changes the collection, and
leaves a session whose question count is negative. -/
theorem c9_counterexample_negative_count_accepted :
    editStudyLogQuestionCount [sampleLog] "7" (-5) ≠ [sampleLog] ∧
    (editStudyLogQuestionCount [sampleLog] "7" (-5)).map
      (fun log => log.questionCount) = [-5] := by
  constructor
  · decide
  · decide

/-- C9 amended: the store-level question-count mutation performs no
validation and stores whatever value it is given; the negative-count check
lives in the UI edit handler (`handleEditQuestionCount` in study-logs),
which rejects a negative count with the validation error without invoking
the mutation, so the collection is unchanged, and otherwise passes the
non-negative count to the store mutation. Every log the mutation returns
either carries the new count or is an untouched non-matching log. -/
theorem c9_question_count_validation (timeLogs : List TimeLog) (logId : String)
    (newQuestionCount : Int) :
    (newQuestionCount < 0 →
      handleEditQuestionCount timeLogs logId newQuestionCount =
        Except.error "Question count cannot be negative") ∧
    (0 ≤ newQuestionCount →
      handleEditQuestionCount timeLogs logId newQuestionCount =
        Except.ok (editStudyLogQuestionCount timeLogs logId newQuestionCount)) ∧
    (∀ log ∈ editStudyLogQuestionCount timeLogs logId newQuestionCount,
      log.questionCount = newQuestionCount ∨ (log ∈ timeLogs ∧ log.id ≠ logId)) := by
  refine ⟨?_, ?_, ?_⟩
  · intro hneg
    simp [handleEditQuestionCount, hneg]
  · intro hpos
    simp [handleEditQuestionCount, not_lt.mpr hpos]
  · intro log hm
    obtain ⟨orig, horig, heq⟩ := List.mem_map.mp hm
    by_cases hid : orig.id = logId
    · left
      rw [← heq, if_pos hid]
    · right
      rw [← heq, if_neg hid]
      exact ⟨horig, hid⟩

theorem c9_question_count_validation_witness :
    handleEditQuestionCount [sampleLog] "7" (-5) =
      Except.error "Question count cannot be negative" ∧
    handleEditQuestionCount [sampleLog] "7" 4 =
      Except.ok (editStudyLogQuestionCount [sampleLog] "7" 4) :=
  ⟨(c9_question_count_validation [sampleLog] "7" (-5)).1 (by decide),
   (c9_question_count_validation [sampleLog] "7" 4).2.1 (by decide)⟩

/-- C6: the per-subject totals are invariant under any permutation of the
record list (the computation is a pure grouped sum), the returned key set
is always exactly "classes" followed by the active configuration's
subjects, and a subject with no records still appears with total 0. -/
theorem c6_subject_totals (examType : ExamType) (timeLogs timeLogs2 : List TimeLog)
    (hperm : timeLogs.Perm timeLogs2) :
    getTotalTimeBySubject examType timeLogs = getTotalTimeBySubject examType timeLogs2 ∧
    getTotalQuestionsBySubject examType timeLogs =
      getTotalQuestionsBySubject examType timeLogs2 ∧
    (getTotalTimeBySubject examType timeLogs).map Prod.fst =
      "classes" :: subjectKeys examType ∧
    (getTotalQuestionsBySubject examType timeLogs).map Prod.fst =
      "classes" :: subjectKeys examType ∧
    (∀ subj ∈ ("classes" :: subjectKeys examType),
      (∀ log ∈ timeLogs, log.subject ≠ subj) →
      ((subj, 0) ∈ getTotalTimeBySubject examType timeLogs ∧
       (subj, 0) ∈ getTotalQuestionsBySubject examType timeLogs)) := by
  have hsum : ∀ (f : TimeLog → Int) (subj : String),
      ((timeLogs.filter (fun log => log.subject == subj)).map f).sum =
      ((timeLogs2.filter (fun log => log.subject == subj)).map f).sum :=
    fun f subj => ((hperm.filter _).map f).sum_eq
  have hnil : ∀ (subj : String), (∀ log ∈ timeLogs, log.subject ≠ subj) →
      timeLogs.filter (fun log => log.subject == subj) = [] := by
    intro subj hnone
    rw [List.filter_eq_nil_iff]
    intro a ha
    simpa using hnone a ha
  refine ⟨?_, ?_, ?_, ?_, ?_⟩
  · simp only [getTotalTimeBySubject]
    exact List.map_congr_left fun subj _ => by rw [hsum]
  · simp only [getTotalQuestionsBySubject]
    exact List.map_congr_left fun subj _ => by rw [hsum]
  · rw [getTotalTimeBySubject, List.map_map]
    exact (List.map_congr_left fun a _ => rfl).trans (List.map_id _)
  · rw [getTotalQuestionsBySubject, List.map_map]
    exact (List.map_congr_left fun a _ => rfl).trans (List.map_id _)
  · intro subj hsubj hnone
    constructor
    · refine List.mem_map.mpr ⟨subj, hsubj, ?_⟩
      rw [hnil subj hnone]
      rfl
    · refine List.mem_map.mpr ⟨subj, hsubj, ?_⟩
      rw [hnil subj hnone]
      rfl

/-- Two concrete logs with swapped order for the aggregation witness. -/
def logA : TimeLog :=
  { id := "a", subject := "physics", duration := 1200, timestamp := 1000,
    startTime := 500, endTime := 1000, questionCount := 5,
    goalId := none, goalTitle := none, notes := none }

def logB : TimeLog :=
  { id := "b", subject := "chemistry", duration := 600, timestamp := 2000,
    startTime := 1500, endTime := 2000, questionCount := 2,
    goalId := none, goalTitle := none, notes := none }

theorem c6_subject_totals_witness :
    getTotalTimeBySubject ExamType.JEE [logA, logB] =
      getTotalTimeBySubject ExamType.JEE [logB, logA] ∧
    ("mathematics", 0) ∈ getTotalTimeBySubject ExamType.JEE [logA, logB] :=
  have h := c6_subject_totals ExamType.JEE [logA, logB] [logB, logA]
    (List.Perm.swap logB logA [])
  ⟨h.1, ((h.2.2.2.2 "mathematics" (by decide) (by decide)).1)⟩

/-- C4: switching the exam type keeps exactly the sessions and tasks whose
subject is "classes" or belongs to the new configuration's subject set
(survivors are the untouched original records, in order), discards all
test records, and resets the active subject to the first subject of the
new set. -/
theorem c4_exam_type_switch (st : AppState) (newSettings : UserSettings)
    (h : newSettings.examType ≠ st.settings.examType) :
    (∀ log, log ∈ (handleUpdateSettings st newSettings).timeLogs ↔
      (log ∈ st.timeLogs ∧
        (log.subject = "classes" ∨ log.subject ∈ subjectKeys newSettings.examType))) ∧
    (handleUpdateSettings st newSettings).timeLogs.Sublist st.timeLogs ∧
    (∀ task, task ∈ (handleUpdateSettings st newSettings).tasks ↔
      (task ∈ st.tasks ∧
        (task.subject = "classes" ∨ task.subject ∈ subjectKeys newSettings.examType))) ∧
    (handleUpdateSettings st newSettings).tasks.Sublist st.tasks ∧
    (handleUpdateSettings st newSettings).tests = [] ∧
    (handleUpdateSettings st newSettings).activeSubject =
      (subjectKeys newSettings.examType).headD st.activeSubject := by
  have hs : handleUpdateSettings st newSettings = { st with
      settings := newSettings
      activeSubject := (subjectKeys newSettings.examType).headD st.activeSubject
      timeLogs := st.timeLogs.filter (fun log =>
        log.subject == "classes" || (subjectKeys newSettings.examType).contains log.subject)
      tasks := st.tasks.filter (fun task =>
        task.subject == "classes" || (subjectKeys newSettings.examType).contains task.subject)
      tests := [] } := by
    rw [handleUpdateSettings, if_pos h]
  rw [hs]
  refine ⟨?_, List.filter_sublist _, ?_, List.filter_sublist _, rfl, rfl⟩
  · intro log
    simp [List.mem_filter]
  · intro task
    simp [List.mem_filter]

/-- Concrete state for the exam-switch witness: one physics and one
mathematics session, one physics and one mathematics task, one test. -/
def mathLog : TimeLog :=
  { id := "m", subject := "mathematics", duration := 300, timestamp := 3000,
    startTime := 2700, endTime := 3000, questionCount := 4,
    goalId := none, goalTitle := none, notes := none }

def physTask : Task :=
  { id := "t1", title := "kinematics", subject := "physics", completed := false, createdAt := 0 }

def mathTask : Task :=
  { id := "t2", title := "integrals", subject := "mathematics", completed := true, createdAt := 0 }

def sampleTest : TestRecord :=
  { id := "test1", date := 0, totalScore := 200, totalMarks := 300, timeSpent := 180,
    notes := none, subjectData := [] }

def jeeState : AppState :=
  { activeSubject := "mathematics"
    timeLogs := [logA, mathLog]
    tasks := [physTask, mathTask]
    tests := [sampleTest]
    settings := { examType := ExamType.JEE, customSubjectNames := [],
                  streakConfig := { minStudyHours := 10, minQuestions := 60 } } }

def neetSettings : UserSettings :=
  { examType := ExamType.NEET, customSubjectNames := [],
    streakConfig := { minStudyHours := 10, minQuestions := 60 } }

theorem c4_exam_type_switch_witness :
    logA ∈ (handleUpdateSettings jeeState neetSettings).timeLogs ∧
    mathLog ∉ (handleUpdateSettings jeeState neetSettings).timeLogs ∧
    physTask ∈ (handleUpdateSettings jeeState neetSettings).tasks ∧
    mathTask ∉ (handleUpdateSettings jeeState neetSettings).tasks ∧
    (handleUpdateSettings jeeState neetSettings).tests = [] ∧
    (handleUpdateSettings jeeState neetSettings).activeSubject = "physics" :=
  have h := c4_exam_type_switch jeeState neetSettings (by decide)
  ⟨(h.1 logA).mpr ⟨by decide, by decide⟩,
   fun hm => absurd ((h.1 mathLog).mp hm).2 (by decide),
   (h.2.2.1 physTask).mpr ⟨by decide, by decide⟩,
   fun hm => absurd ((h.2.2.1 mathTask).mp hm).2 (by decide),
   h.2.2.2.2.1,
   h.2.2.2.2.2.trans (by decide)⟩

theorem upsertHistory_map_calDay_of_mem (hist : List StreakEntry) (today : Int) (met : Bool)
    (h : ∃ e ∈ hist, calDay e.date = calDay today) :
    (upsertHistory hist today met).map (fun e => calDay e.date) =
      hist.map (fun e => calDay e.date) := by
  induction hist with
  | nil => simp at h
  | cons e rest ih =>
    by_cases he : calDay e.date = calDay today
    · simp [upsertHistory, he]
    · obtain ⟨w, hw, hwc⟩ := h
      rcases List.mem_cons.mp hw with rfl | hwr
      · exact absurd hwc he
      · simp [upsertHistory, he, ih ⟨w, hwr, hwc⟩]

theorem upsertHistory_calDay_mem (hist : List StreakEntry) (today : Int) (met : Bool) :
    ∀ x ∈ upsertHistory hist today met,
      calDay x.date = calDay today ∨ ∃ e ∈ hist, calDay x.date = calDay e.date := by
  induction hist with
  | nil =>
    intro x hx
    simp only [upsertHistory, List.mem_singleton] at hx
    subst hx
    left
    rfl
  | cons e rest ih =>
    intro x hx
    simp only [upsertHistory] at hx
    by_cases he : calDay e.date = calDay today
    · rw [if_pos he] at hx
      rcases List.mem_cons.mp hx with rfl | hxr
      · left
        exact he
      · right
        exact ⟨x, List.mem_cons_of_mem e hxr, rfl⟩
    · rw [if_neg he] at hx
      rcases List.mem_cons.mp hx with rfl | hxr
      · right
        exact ⟨x, List.mem_cons_self x rest, rfl⟩
      · rcases ih x hxr with hc | ⟨w, hw, hc⟩
        · left
          exact hc
        · right
          exact ⟨w, List.mem_cons_of_mem e hw, hc⟩

theorem upsertHistory_pairwise (hist : List StreakEntry) (today : Int) (met : Bool)
    (h : hist.Pairwise (fun a b => calDay a.date ≠ calDay b.date)) :
    (upsertHistory hist today met).Pairwise (fun a b => calDay a.date ≠ calDay b.date) := by
  induction hist with
  | nil => simp [upsertHistory]
  | cons e rest ih =>
    obtain ⟨hhead, htail⟩ := List.pairwise_cons.mp h
    simp only [upsertHistory]
    by_cases he : calDay e.date = calDay today
    · rw [if_pos he]
      exact List.pairwise_cons.mpr ⟨fun b hb => hhead b hb, htail⟩
    · rw [if_neg he]
      refine List.pairwise_cons.mpr ⟨?_, ih htail⟩
      intro b hb
      rcases upsertHistory_calDay_mem rest today met b hb with hc | ⟨w, hw, hc⟩
      · intro hcontra
        exact he (hcontra.trans hc)
      · intro hcontra
        exact (hhead w hw) (hcontra.trans hc)

theorem upsertHistory_last_wins (hist : List StreakEntry) (today : Int) (met : Bool)
    (h : hist.Pairwise (fun a b => calDay a.date ≠ calDay b.date)) :
    ∀ x ∈ upsertHistory hist today met, calDay x.date = calDay today →
      x.maintained = met := by
  induction hist with
  | nil =>
    intro x hx _
    simp only [upsertHistory, List.mem_singleton] at hx
    subst hx
    rfl
  | cons e rest ih =>
    obtain ⟨hhead, htail⟩ := List.pairwise_cons.mp h
    intro x hx hc
    simp only [upsertHistory] at hx
    by_cases he : calDay e.date = calDay today
    · rw [if_pos he] at hx
      rcases List.mem_cons.mp hx with rfl | hxr
      · rfl
      · exact absurd (he.trans hc.symm) (hhead x hxr)
    · rw [if_neg he] at hx
      rcases List.mem_cons.mp hx with rfl | hxr
      · exact absurd hc he
      · exact ih htail x hxr hc

/-- Threshold configuration used by the concrete streak scenarios:
qualification needs at least one question and no minimum hours, so a day
qualifies exactly when some session starts in its window. -/
def scenarioCfg : StreakConfig :=
  { minStudyHours := ((0 : Int) : ℚ), minQuestions := ((1 : Int) : ℚ) }

/-- C7 counterexample: two evaluations inside one logical day that straddle
midnight (23:00 on calendar day 0, then 03:00 on calendar day 1 — both in
logical day 0) append two history entries instead of upserting one,
because the history is keyed on the `toDateString` calendar day, not on
the 04:30-cutover logical day. -/
theorem c7_counterexample_duplicate_logical_day :
    ((updateStreak scenarioCfg []
        (updateStreak scenarioCfg []
          { currentStreak := 0, longestStreak := 0, lastStreakDate := 0, streakHistory := [] }
          82800000)
        97200000).streakHistory.map (fun e => logicalDay e.date) = [0, 0]) ∧
    (updateStreak scenarioCfg []
        (updateStreak scenarioCfg []
          { currentStreak := 0, longestStreak := 0, lastStreakDate := 0, streakHistory := [] }
          82800000)
        97200000).streakHistory.length = 2 := by
  rw [updateStreak_history, updateStreak_history]
  have hc : ¬ calDay 82800000 = calDay 97200000 := by decide
  have hl1 : logicalDay 82800000 = 0 := by decide
  have hl2 : logicalDay 97200000 = 0 := by decide
  simp [upsertHistory, hc, hl1, hl2]

/-- C7 amended: the streak history is keyed on the *calendar* day of the
evaluation instant: under the invariant that all history entries carry
distinct calendar days, one evaluation preserves that invariant,
re-evaluating on a calendar day that already has an entry rewrites in
place (the multiset of calendar days is unchanged), and every entry for
today's calendar day ends up carrying today's qualification result (last
evaluation wins). -/
theorem c7_history_upsert_calendar_day (cfg : StreakConfig) (timeLogs : List TimeLog)
    (streakData : StreakData) (today : Int)
    (h : streakData.streakHistory.Pairwise (fun a b => calDay a.date ≠ calDay b.date)) :
    (updateStreak cfg timeLogs streakData today).streakHistory.Pairwise
      (fun a b => calDay a.date ≠ calDay b.date) ∧
    ((∃ e ∈ streakData.streakHistory, calDay e.date = calDay today) →
      (updateStreak cfg timeLogs streakData today).streakHistory.map
        (fun e => calDay e.date) = streakData.streakHistory.map (fun e => calDay e.date)) ∧
    (∀ e ∈ (updateStreak cfg timeLogs streakData today).streakHistory,
      calDay e.date = calDay today →
        e.maintained = checkStreakRequirements cfg timeLogs today) := by
  rw [updateStreak_history]
  exact ⟨upsertHistory_pairwise _ _ _ h,
    fun hex => upsertHistory_map_calDay_of_mem _ _ _ hex,
    upsertHistory_last_wins _ _ _ h⟩

theorem c7_history_upsert_calendar_day_witness :
    (updateStreak scenarioCfg []
      { currentStreak := 0, longestStreak := 0, lastStreakDate := 0,
        streakHistory := [{ date := 43200000, maintained := false }] }
      50000000).streakHistory.map (fun e => calDay e.date) =
      ([{ date := 43200000, maintained := false }] : List StreakEntry).map
        (fun e => calDay e.date) :=
  have h := c7_history_upsert_calendar_day scenarioCfg []
    { currentStreak := 0, longestStreak := 0, lastStreakDate := 0,
      streakHistory := [{ date := 43200000, maintained := false }] }
    50000000 (by simp)
  h.2.1 ⟨{ date := 43200000, maintained := false }, by simp, by decide⟩

/-- A one-hour, one-question session starting at instant `t`. -/
def scenarioLog (i : String) (t : Int) : TimeLog :=
  { id := i, subject := "physics", duration := 3600, timestamp := t, startTime := t,
    endTime := t, questionCount := 1, goalId := none, goalTitle := none, notes := none }

/-- Sessions at noon of calendar days 1, 2, 4 and 5 (logical days D1, D2,
D4, D5); logical days D0 and D3 have none, so under `scenarioCfg` the
qualification sequence over D1..D5 is [true, true, false, true, true]. -/
def scenarioLogs : List TimeLog :=
  [scenarioLog "1" 129600000, scenarioLog "2" 216000000,
   scenarioLog "4" 388800000, scenarioLog "5" 475200000]

/-- Start state: zero streak, `lastStreakDate` at noon of day 0, before D1. -/
def scenarioInit : StreakData :=
  { currentStreak := 0, longestStreak := 0, lastStreakDate := 43200000, streakHistory := [] }

/-- One evaluation per logical day, at noon of calendar days 1..5. -/
def scenarioDays : List Int :=
  [129600000, 216000000, 302400000, 388800000, 475200000]

theorem scenario_q0 : checkStreakRequirements scenarioCfg scenarioLogs 43200000 = false := by
  show checkStreakRequirements ⟨((0 : Int) : ℚ), ((1 : Int) : ℚ)⟩ scenarioLogs 43200000 = false
  rw [checkStreakRequirements_int]
  decide

theorem scenario_q1 : checkStreakRequirements scenarioCfg scenarioLogs 129600000 = true := by
  show checkStreakRequirements ⟨((0 : Int) : ℚ), ((1 : Int) : ℚ)⟩ scenarioLogs 129600000 = true
  rw [checkStreakRequirements_int]
  decide

theorem scenario_q2 : checkStreakRequirements scenarioCfg scenarioLogs 216000000 = true := by
  show checkStreakRequirements ⟨((0 : Int) : ℚ), ((1 : Int) : ℚ)⟩ scenarioLogs 216000000 = true
  rw [checkStreakRequirements_int]
  decide

theorem scenario_q3 : checkStreakRequirements scenarioCfg scenarioLogs 302400000 = false := by
  show checkStreakRequirements ⟨((0 : Int) : ℚ), ((1 : Int) : ℚ)⟩ scenarioLogs 302400000 = false
  rw [checkStreakRequirements_int]
  decide

theorem scenario_q4 : checkStreakRequirements scenarioCfg scenarioLogs 388800000 = true := by
  show checkStreakRequirements ⟨((0 : Int) : ℚ), ((1 : Int) : ℚ)⟩ scenarioLogs 388800000 = true
  rw [checkStreakRequirements_int]
  decide

theorem scenario_q5 : checkStreakRequirements scenarioCfg scenarioLogs 475200000 = true := by
  show checkStreakRequirements ⟨((0 : Int) : ℚ), ((1 : Int) : ℚ)⟩ scenarioLogs 475200000 = true
  rw [checkStreakRequirements_int]
  decide

theorem scenario_state1 :
    updateStreak scenarioCfg scenarioLogs scenarioInit 129600000 =
      { currentStreak := 1, longestStreak := 1, lastStreakDate := 129600000,
        streakHistory := [{ date := 129600000, maintained := true }] } := by
  simp only [updateStreak]
  rw [show (129600000 : Int) - msPerDay = 43200000 from by decide, scenario_q0, scenario_q1]
  decide

theorem scenario_state2 :
    updateStreak scenarioCfg scenarioLogs
      { currentStreak := 1, longestStreak := 1, lastStreakDate := 129600000,
        streakHistory := [{ date := 129600000, maintained := true }] } 216000000 =
      { currentStreak := 2, longestStreak := 2, lastStreakDate := 216000000,
        streakHistory := [{ date := 129600000, maintained := true },
          { date := 216000000, maintained := true }] } := by
  simp only [updateStreak]
  rw [show (216000000 : Int) - msPerDay = 129600000 from by decide, scenario_q1, scenario_q2]
  decide

theorem scenario_state3 :
    updateStreak scenarioCfg scenarioLogs
      { currentStreak := 2, longestStreak := 2, lastStreakDate := 216000000,
        streakHistory := [{ date := 129600000, maintained := true },
          { date := 216000000, maintained := true }] } 302400000 =
      { currentStreak := 2, longestStreak := 2, lastStreakDate := 302400000,
        streakHistory := [{ date := 129600000, maintained := true },
          { date := 216000000, maintained := true },
          { date := 302400000, maintained := false }] } := by
  simp only [updateStreak]
  rw [show (302400000 : Int) - msPerDay = 216000000 from by decide, scenario_q2, scenario_q3]
  decide

theorem scenario_state4 :
    updateStreak scenarioCfg scenarioLogs
      { currentStreak := 2, longestStreak := 2, lastStreakDate := 302400000,
        streakHistory := [{ date := 129600000, maintained := true },
          { date := 216000000, maintained := true },
          { date := 302400000, maintained := false }] } 388800000 =
      { currentStreak := 1, longestStreak := 2, lastStreakDate := 388800000,
        streakHistory := [{ date := 129600000, maintained := true },
          { date := 216000000, maintained := true },
          { date := 302400000, maintained := false },
          { date := 388800000, maintained := true }] } := by
  simp only [updateStreak]
  rw [show (388800000 : Int) - msPerDay = 302400000 from by decide, scenario_q3, scenario_q4]
  decide

theorem scenario_state5 :
    updateStreak scenarioCfg scenarioLogs
      { currentStreak := 1, longestStreak := 2, lastStreakDate := 388800000,
        streakHistory := [{ date := 129600000, maintained := true },
          { date := 216000000, maintained := true },
          { date := 302400000, maintained := false },
          { date := 388800000, maintained := true }] } 475200000 =
      { currentStreak := 2, longestStreak := 2, lastStreakDate := 475200000,
        streakHistory := [{ date := 129600000, maintained := true },
          { date := 216000000, maintained := true },
          { date := 302400000, maintained := false },
          { date := 388800000, maintained := true },
          { date := 475200000, maintained := true }] } := by
  simp only [updateStreak]
  rw [show (475200000 : Int) - msPerDay = 388800000 from by decide, scenario_q4, scenario_q5]
  decide

theorem scenario_streak_values :
    streakSequence scenarioCfg scenarioLogs scenarioInit scenarioDays = [1, 2, 2, 1, 2] := by
  simp only [scenarioDays, streakSequence, scenario_state1, scenario_state2,
    scenario_state3, scenario_state4, scenario_state5]

theorem scenario_final_longest :
    (runStreak scenarioCfg scenarioLogs scenarioInit scenarioDays).longestStreak = 2 := by
  simp only [scenarioDays, runStreak, List.foldl, scenario_state1, scenario_state2,
    scenario_state3, scenario_state4, scenario_state5]

/-- C1 counterexample: for the qualification sequence
[true, true, false, true, true] over logical days D1..D5, with the claimed
start state (zero streak, `lastStreakDate` before D1), the per-day
`currentStreak` readings are not [1, 2, 0, 1, 2]: after D3's evaluation the
engine still reports 2, because a day that fails to qualify leaves
`currentStreak` untouched — the reset to 0 only fires on the next day's
evaluation. -/
theorem c1_counterexample_day3_streak :
    streakSequence scenarioCfg scenarioLogs scenarioInit scenarioDays ≠ [1, 2, 0, 1, 2] := by
  rw [scenario_streak_values]
  decide

/-- C1 amended: for the qualification sequence [true, true, false, true,
true] over D1..D5 (start state: streak 0, longest 0, empty history,
`lastStreakDate` before D1), the `currentStreak` readings after each
evaluation are [1, 2, 2, 1, 2] — the non-qualifying D3 keeps the stale
streak of 2 until D4's evaluation resets and restarts it — and
`longestStreak` ends at 2. -/
theorem c1_streak_scenario :
    streakSequence scenarioCfg scenarioLogs scenarioInit scenarioDays = [1, 2, 2, 1, 2] ∧
    (runStreak scenarioCfg scenarioLogs scenarioInit scenarioDays).longestStreak = 2 :=
  ⟨scenario_streak_values, scenario_final_longest⟩

end StudyTimer
